import Mathlib

/-!
Verification of the frame transcoding pipeline of the `webcodecs-nodejs`
native addon (`src/native/addon.cc`).

The two pipeline entry points, `EncodeVP8Frame` and `DecodeVP8Frame`, are
embedded as pure Lean functions.  Calls into the external codec/conversion
library (libavcodec / libswscale) are modelled by an *oracle*: a record
holding, for each native call the pipeline performs, the outcome that call
would return (allocation success, signed status codes, decoded dimensions,
packet payloads, frame line sizes, the bytes the conversion backend writes,
and the text `av_strerror` produces).  The embedding then mirrors the C++
control flow exactly: the same branch conditions, the same early returns,
the same free calls, in the same order.

Each run records, besides the outcome value:
  * the final liveness of the four native resources the call allocates
    (codec context, frame, packet, swscale context), so resource-leak
    properties are statements about the final `Resources`;
  * a trace of the native calls performed, so "the converter is never
    reached" style properties are statements about the trace;
  * the state of the frame at submission time (picture type, timestamp,
    plane contents), so plane-copy and keyframe-tagging properties can be
    stated.

Null-pointer dereferences that the C++ code can perform (frame / packet
allocation results used without a null check) are modelled by a distinct
`crash` outcome rather than an error return.
-/

set_option maxRecDepth 8000

namespace WebcodecsAddon

/-- Liveness of the native resources a single pipeline call can allocate.
A field is `true` while the corresponding native object is allocated and
not yet freed. -/
structure Resources where
  ctx : Bool
  frame : Bool
  pkt : Bool
  sws : Bool
deriving Repr, DecidableEq

/-- The state with no native resource allocated: what every leak-free exit
path must end in. -/
def Resources.clean : Resources := ⟨false, false, false, false⟩

/-- Native library calls the pipeline can perform, recorded in a run trace.
`getSws` records the dimensions handed to `sws_getContext`. -/
inductive NCall where
  | findEncoder
  | findDecoder
  | allocCtx
  | openCtx
  | allocFrame
  | getBuffer
  | makeWritable
  | getSws (w h : Int)
  | swsScale
  | allocPkt
  | sendFrame
  | flush
  | receivePkt
  | sendPkt
  | receiveFrame
deriving Repr, DecidableEq

/-- Errors surfaced to JavaScript: `Napi::TypeError` vs `Napi::Error`,
with the exact message string the C++ code builds. -/
inductive JsErr where
  | typeError (msg : String)
  | error (msg : String)
deriving Repr, DecidableEq

/-- Result of one pipeline call: a value, a thrown JS error, or a crash
(undefined behaviour from dereferencing a failed allocation). -/
inductive Outcome (α : Type) where
  | ok (a : α)
  | err (e : JsErr)
  | crash
deriving Repr, DecidableEq

/-- The object `encodeVP8Frame` returns to JavaScript:
`{ data, isKeyframe, size }`. -/
structure EncodeResult where
  data : List Nat
  isKeyframe : Bool
  size : Nat
deriving Repr, DecidableEq

/-- The AVFrame at the moment it is submitted to the encoder: picture
type tag, presentation timestamp, and the three plane byte contents
(each plane is a byte-indexed function). -/
structure FrameState where
  pictTypeI : Bool
  pts : Int
  planeY : Nat → Nat
  planeU : Nat → Nat
  planeV : Nat → Nat

/-- Everything observable about one `EncodeVP8Frame` run. -/
structure EncodeRun where
  outcome : Outcome EncodeResult
  res : Resources
  trace : List NCall
  submitted : Option FrameState

/-- Oracle for the native calls `EncodeVP8Frame` performs.  Statuses are
the signed ints the library returns; `ls0/ls1/ls2` are the line sizes
`av_frame_get_buffer` chooses; `initY/initU/initV` are the (uninitialised)
plane contents after allocation; `swsY/swsU/swsV` are the plane contents
`sws_scale` writes on the RGB path; `strerror` models `av_strerror`. -/
structure EncodeOracle where
  encoderFound : Bool
  ctxAllocOk : Bool
  openStatus : Int
  frameAllocOk : Bool
  getBufferStatus : Int
  makeWritableStatus : Int
  ls0 : Nat
  ls1 : Nat
  ls2 : Nat
  initY : Nat → Nat
  initU : Nat → Nat
  initV : Nat → Nat
  swsCtxOk : Bool
  swsY : Nat → Nat
  swsU : Nat → Nat
  swsV : Nat → Nat
  swsScaleStatus : Int
  sendFrameStatus : Int
  flushStatus : Int
  pktAllocOk : Bool
  receiveStatus : Int
  pktKeyFlag : Bool
  pktData : List Nat
  strerror : Int → String

/-- `format == "I420" || format == "YUV420P"` (addon.cc line 156). -/
def isI420Format (format : String) : Bool :=
  format == "I420" || format == "YUV420P"

/-- `static_cast<size_t>` of a C integer expression: reduce into the
unsigned 64-bit range. -/
def sizeT (v : Int) : Nat := (v % (2 ^ 64 : Int)).toNat

/-- The `expectedSize` computation of addon.cc lines 159-161:
`width * height + (width / 2) * (height / 2) * 2` for I420 (C division
truncates toward zero), `width * height * 3` for RGB24, then cast to
`size_t`. -/
def expectedEncodeSize (i420 : Bool) (width height : Int) : Nat :=
  if i420 then sizeT (width * height + Int.tdiv width 2 * Int.tdiv height 2 * 2)
  else sizeT (width * height * 3)

/-- One `memcpy(dst + dstOff, src + srcOff, n)` over byte-indexed
memory. -/
def memcpyAt (dst : Nat → Nat) (dstOff : Nat) (src : Nat → Nat) (srcOff n : Nat) :
    Nat → Nat :=
  fun i => if dstOff ≤ i ∧ i < dstOff + n then src (srcOff + (i - dstOff)) else dst i

/-- The per-plane copy loop of addon.cc lines 228-238: for each row
`y < rows`, copy `cols` bytes from `src + srcOff + y * srcStride` to
`dst + y * stride`. -/
def copyRows (dst : Nat → Nat) (stride : Nat) (src : Nat → Nat)
    (srcOff srcStride cols : Nat) : Nat → (Nat → Nat)
  | 0 => dst
  | y + 1 =>
    memcpyAt (copyRows dst stride src srcOff srcStride cols y)
      (y * stride) src (srcOff + y * srcStride) cols

/-- The frame contents after the direct plane-by-plane copy of the I420
fast path (addon.cc lines 221-238): `ySize = width * height`,
`uvStride = width / 2`, `uvHeight = height / 2`; the Y plane rows come
from input offset 0, the U plane rows from offset `ySize`, the V plane
rows from offset `ySize + uvStride * uvHeight`, each row laid out at the
destination line size.  The frame is then tagged `pts = 0` and intra
(lines 261-262). -/
def i420Frame (o : EncodeOracle) (input : List Nat) (width height : Int) :
    FrameState :=
  { pictTypeI := true, pts := 0,
    planeY := copyRows o.initY o.ls0 (fun i => input.getD i 0)
        0 width.toNat width.toNat height.toNat,
    planeU := copyRows o.initU o.ls1 (fun i => input.getD i 0)
        (width.toNat * height.toNat) (width.toNat / 2) (width.toNat / 2)
        (height.toNat / 2),
    planeV := copyRows o.initV o.ls2 (fun i => input.getD i 0)
        (width.toNat * height.toNat + width.toNat / 2 * (height.toNat / 2))
        (width.toNat / 2) (width.toNat / 2) (height.toNat / 2) }

/-- The frame contents after `sws_scale` converted the RGB24 input
(addon.cc line 257), tagged `pts = 0` and intra. -/
def rgbFrame (o : EncodeOracle) : FrameState :=
  { pictTypeI := true, pts := 0,
    planeY := o.swsY, planeU := o.swsU, planeV := o.swsV }

/-- Tail of the encode pipeline, from packet allocation (line 265) to the
end: send the frame, flush (status discarded, line 281), receive the
packet, build the result, free everything.  `trace0` is the trace so far,
`swsLive` whether an swscale context is currently allocated, `frame` the
submitted frame state. -/
def encodeSubmit (o : EncodeOracle) (frame : FrameState) (swsLive : Bool)
    (trace0 : List NCall) : EncodeRun :=
  if o.sendFrameStatus < 0 then
    { outcome := .err (.error ("Failed to send frame: " ++ o.strerror o.sendFrameStatus)),
      res := Resources.clean,
      trace := trace0 ++ [.allocPkt, .sendFrame],
      submitted := some frame }
  else if ¬ o.pktAllocOk then
    -- the flush status is discarded; avcodec_receive_packet then
    -- dereferences the null packet
    { outcome := .crash,
      res := { ctx := true, frame := true, pkt := false, sws := swsLive },
      trace := trace0 ++ [.allocPkt, .sendFrame, .flush],
      submitted := some frame }
  else if o.receiveStatus < 0 then
    { outcome := .err (.error ("Failed to receive packet: " ++ o.strerror o.receiveStatus)),
      res := Resources.clean,
      trace := trace0 ++ [.allocPkt, .sendFrame, .flush, .receivePkt],
      submitted := some frame }
  else
    { outcome := .ok { data := o.pktData, isKeyframe := o.pktKeyFlag,
                       size := o.pktData.length },
      res := Resources.clean,
      trace := trace0 ++ [.allocPkt, .sendFrame, .flush, .receivePkt],
      submitted := some frame }

/-- The encode pipeline after buffer validation has passed (addon.cc
lines 168-314): encoder lookup, context allocation, configuration, open,
frame allocation and buffer attachment, the make-writable call (status
discarded, line 217), then either the direct I420 plane copy or swscale
context creation plus conversion (status discarded, line 257), then
`encodeSubmit`. -/
def encodeStage2 (o : EncodeOracle) (input : List Nat) (width height : Int)
    (i420 : Bool) : EncodeRun :=
  if ¬ o.encoderFound then
    { outcome := .err (.error "VP8 encoder (libvpx) not found"),
      res := Resources.clean, trace := [.findEncoder], submitted := none }
  else if ¬ o.ctxAllocOk then
    { outcome := .err (.error "Failed to allocate encoder context"),
      res := Resources.clean, trace := [.findEncoder, .allocCtx], submitted := none }
  else if o.openStatus < 0 then
    { outcome := .err (.error "Failed to open VP8 encoder"),
      res := Resources.clean, trace := [.findEncoder, .allocCtx, .openCtx],
      submitted := none }
  else if ¬ o.frameAllocOk then
    -- `frame->format = ctx->pix_fmt` dereferences the null frame (line 205)
    { outcome := .crash,
      res := { ctx := true, frame := false, pkt := false, sws := false },
      trace := [.findEncoder, .allocCtx, .openCtx, .allocFrame], submitted := none }
  else if o.getBufferStatus < 0 then
    { outcome := .err (.error "Failed to allocate frame buffer"),
      res := Resources.clean,
      trace := [.findEncoder, .allocCtx, .openCtx, .allocFrame, .getBuffer],
      submitted := none }
  else if i420 then
    -- av_frame_make_writable status discarded (line 217), then the direct
    -- plane copy: the converter is never created on this path
    encodeSubmit o (i420Frame o input width height) false
      [.findEncoder, .allocCtx, .openCtx, .allocFrame, .getBuffer, .makeWritable]
  else if ¬ o.swsCtxOk then
    { outcome := .err (.error "Failed to create swscale context"),
      res := Resources.clean,
      trace := [.findEncoder, .allocCtx, .openCtx, .allocFrame, .getBuffer,
                .makeWritable, .getSws width height],
      submitted := none }
  else
    encodeSubmit o (rgbFrame o) true
      [.findEncoder, .allocCtx, .openCtx, .allocFrame, .getBuffer,
       .makeWritable, .getSws width height, .swsScale]

/-- Shallow embedding of `EncodeVP8Frame` (addon.cc lines 133-315), after
the boundary adapter has marshalled `(input, width, height, format)`.
The bitrate option does not influence any branch and is omitted. -/
def encodeVP8Frame (o : EncodeOracle) (input : List Nat) (width height : Int)
    (format : String) : EncodeRun :=
  if input.length ≠ expectedEncodeSize (isI420Format format) width height then
    { outcome := .err (.typeError
        (if isI420Format format then "I420 buffer size mismatch"
         else "RGB24 buffer size mismatch")),
      res := Resources.clean, trace := [], submitted := none }
  else
    encodeStage2 o input width height (isI420Format format)

/-- The object `decodeVP8Frame` returns to JavaScript:
`{ width, height, format, data, firstPixelR, firstPixelG, firstPixelB }`. -/
structure DecodeResult where
  width : Int
  height : Int
  format : String
  data : List Nat
  firstPixelR : Nat
  firstPixelG : Nat
  firstPixelB : Nat
deriving Repr, DecidableEq

/-- Everything observable about one `DecodeVP8Frame` run. -/
structure DecodeRun where
  outcome : Outcome DecodeResult
  res : Resources
  trace : List NCall

/-- Oracle for the native calls `DecodeVP8Frame` performs.  `frameWidth`
and `frameHeight` are the dimensions of the decoded frame; `rgbOut i` is
the byte `sws_scale` writes at offset `i` of the RGB destination
buffer. -/
structure DecodeOracle where
  decoderFound : Bool
  ctxAllocOk : Bool
  openStatus : Int
  pktAllocOk : Bool
  frameAllocOk : Bool
  sendStatus : Int
  receiveStatus : Int
  frameWidth : Int
  frameHeight : Int
  swsCtxOk : Bool
  swsScaleStatus : Int
  rgbOut : Nat → Nat
  strerror : Int → String

/-- The result object built on the decode success path (addon.cc lines
390-428): dimensions from the decoded frame, format name `"rgb24"`, the
`width * height * 3`-byte RGB buffer filled by `sws_scale`, and bytes 0,
1, 2 of that buffer as the diagnostic first pixel. -/
def decodeSuccessResult (o : DecodeOracle) : DecodeResult :=
  { width := o.frameWidth, height := o.frameHeight, format := "rgb24",
    data := (List.range (sizeT (o.frameWidth * o.frameHeight * 3))).map o.rgbOut,
    firstPixelR := o.rgbOut 0, firstPixelG := o.rgbOut 1,
    firstPixelB := o.rgbOut 2 }

/-- Shallow embedding of `DecodeVP8Frame` (addon.cc lines 323-437), after
the boundary adapter has marshalled the compressed input buffer. -/
def decodeVP8Frame (o : DecodeOracle) (_input : List Nat) : DecodeRun :=
  if ¬ o.decoderFound then
    { outcome := .err (.error "VP8 decoder not found"),
      res := Resources.clean, trace := [.findDecoder] }
  else if ¬ o.ctxAllocOk then
    { outcome := .err (.error "Failed to allocate codec context"),
      res := Resources.clean, trace := [.findDecoder, .allocCtx] }
  else if o.openStatus < 0 then
    { outcome := .err (.error "Failed to open codec"),
      res := Resources.clean, trace := [.findDecoder, .allocCtx, .openCtx] }
  else if ¬ o.pktAllocOk then
    -- `pkt->data = frameData` dereferences the null packet (line 358)
    { outcome := .crash,
      res := { ctx := true, frame := false, pkt := false, sws := false },
      trace := [.findDecoder, .allocCtx, .openCtx, .allocPkt] }
  else if o.sendStatus < 0 then
    -- av_frame_free on the (possibly null) frame is a safe no-op
    { outcome := .err (.error ("Failed to send packet: " ++ o.strerror o.sendStatus)),
      res := Resources.clean,
      trace := [.findDecoder, .allocCtx, .openCtx, .allocPkt, .allocFrame, .sendPkt] }
  else if ¬ o.frameAllocOk then
    -- avcodec_receive_frame dereferences the null frame (line 378)
    { outcome := .crash,
      res := { ctx := true, frame := false, pkt := true, sws := false },
      trace := [.findDecoder, .allocCtx, .openCtx, .allocPkt, .allocFrame, .sendPkt] }
  else if o.receiveStatus < 0 then
    { outcome := .err (.error ("Failed to receive frame: " ++ o.strerror o.receiveStatus)),
      res := Resources.clean,
      trace := [.findDecoder, .allocCtx, .openCtx, .allocPkt, .allocFrame, .sendPkt,
                .receiveFrame] }
  else if ¬ o.swsCtxOk then
    { outcome := .err (.error "Failed to create swscale context"),
      res := Resources.clean,
      trace := [.findDecoder, .allocCtx, .openCtx, .allocPkt, .allocFrame, .sendPkt,
                .receiveFrame, .getSws o.frameWidth o.frameHeight] }
  else
    -- sws_scale fills the freshly allocated RGB buffer of
    -- `size_t rgbSize = width * height * 3` bytes (line 393); its status
    -- is discarded (line 416); the first three bytes are read back as the
    -- diagnostic pixel
    { outcome := .ok (decodeSuccessResult o),
      res := Resources.clean,
      trace := [.findDecoder, .allocCtx, .openCtx, .allocPkt, .allocFrame, .sendPkt,
                .receiveFrame, .getSws o.frameWidth o.frameHeight, .swsScale] }

/-- An encode oracle in which every native call succeeds, line sizes equal
the logical widths, plane memory is zero-initialised, the packet carries
the key flag, and the produced payload is a fixed 4-byte bitstream.  Used
to instantiate theorems at concrete runs. -/
def okEncodeOracle : EncodeOracle where
  encoderFound := true
  ctxAllocOk := true
  openStatus := 0
  frameAllocOk := true
  getBufferStatus := 0
  makeWritableStatus := 0
  ls0 := 16
  ls1 := 8
  ls2 := 8
  initY := fun _ => 0
  initU := fun _ => 0
  initV := fun _ => 0
  swsCtxOk := true
  swsY := fun _ => 0
  swsU := fun _ => 0
  swsV := fun _ => 0
  swsScaleStatus := 0
  sendFrameStatus := 0
  flushStatus := 0
  pktAllocOk := true
  receiveStatus := 0
  pktKeyFlag := true
  pktData := [1, 2, 3, 4]
  strerror := fun _ => "native error"

/-- A decode oracle in which every native call succeeds and the decoder
reports a 4x2 frame whose converted RGB bytes are `i % 256`. -/
def okDecodeOracle : DecodeOracle where
  decoderFound := true
  ctxAllocOk := true
  openStatus := 0
  pktAllocOk := true
  frameAllocOk := true
  sendStatus := 0
  receiveStatus := 0
  frameWidth := 4
  frameHeight := 2
  swsCtxOk := true
  swsScaleStatus := 0
  rgbOut := fun i => i % 256
  strerror := fun _ => "native error"

/-! ## Helper lemmas -/

/-- Reading back a byte written by the row-copy loop: provided rows do not
overlap (`cols ≤ stride`), byte `x` of destination row `y` holds byte `x`
of source row `y`. -/
theorem copyRows_read (dst src : Nat → Nat) (stride srcOff srcStride cols : Nat) :
    ∀ rows y x, x < cols → y < rows → cols ≤ stride →
      copyRows dst stride src srcOff srcStride cols rows (y * stride + x)
        = src (srcOff + y * srcStride + x) := by
  intro rows
  induction rows with
  | zero => intro y x _ hy _; omega
  | succ r ih =>
    intro y x hx hy hcs
    simp only [copyRows, memcpyAt]
    rcases Nat.lt_succ_iff_lt_or_eq.mp hy with h | h
    · rw [if_neg]
      · exact ih y x hx h hcs
      · rintro ⟨h1, _⟩
        have hmul : (y + 1) * stride ≤ r * stride :=
          Nat.mul_le_mul_right stride (by omega)
        have he : (y + 1) * stride = y * stride + stride := by ring
        omega
    · subst h
      rw [if_pos ⟨Nat.le_add_right _ _, by omega⟩]
      congr 1
      omega

/-- `static_cast<size_t>` is the identity on natural numbers below `2^64`. -/
theorem sizeT_ofNat (n : Nat) (h : n < 2 ^ 64) : sizeT (n : Int) = n := by
  unfold sizeT
  rw [Int.emod_eq_of_lt (by exact_mod_cast Nat.zero_le n) (by exact_mod_cast h)]
  simp

/-- C truncating division by 2 agrees with `Nat` division on casts. -/
theorem tdiv_two (m : Nat) : Int.tdiv (m : Int) 2 = ((m / 2 : Nat) : Int) :=
  rfl

/-- For in-range non-negative dimensions the I420 `expectedSize` is the
floor-division formula over `Nat`. -/
theorem expectedEncodeSize_i420 (w h : Int)
    (hw0 : 0 ≤ w) (hw : w < 2 ^ 31) (hh0 : 0 ≤ h) (hh : h < 2 ^ 31) :
    expectedEncodeSize true w h
      = w.toNat * h.toNat + w.toNat / 2 * (h.toNat / 2) * 2 := by
  have hw' : w = (w.toNat : Int) := (Int.toNat_of_nonneg hw0).symm
  have hh' : h = (h.toNat : Int) := (Int.toNat_of_nonneg hh0).symm
  have hwn : w.toNat < 2 ^ 31 := by omega
  have hhn : h.toNat < 2 ^ 31 := by omega
  rw [expectedEncodeSize, if_pos rfl, hw', hh', tdiv_two, tdiv_two]
  have hcast : ((w.toNat : Int)) * (h.toNat : Int)
        + ((w.toNat / 2 : Nat) : Int) * ((h.toNat / 2 : Nat) : Int) * 2
      = ((w.toNat * h.toNat + w.toNat / 2 * (h.toNat / 2) * 2 : Nat) : Int) := by
    push_cast; ring
  rw [hcast]
  apply sizeT_ofNat
  have h1 : w.toNat * h.toNat < 2 ^ 62 := by
    calc w.toNat * h.toNat < 2 ^ 31 * 2 ^ 31 :=
          Nat.mul_lt_mul_of_lt_of_lt hwn hhn
    _ = 2 ^ 62 := by norm_num
  have h2 : w.toNat / 2 * (h.toNat / 2) ≤ w.toNat * h.toNat :=
    Nat.mul_le_mul (Nat.div_le_self _ _) (Nat.div_le_self _ _)
  omega

/-- For in-range non-negative dimensions the RGB24 `expectedSize` is
`width * height * 3` over `Nat`. -/
theorem expectedEncodeSize_rgb (w h : Int)
    (hw0 : 0 ≤ w) (hw : w < 2 ^ 31) (hh0 : 0 ≤ h) (hh : h < 2 ^ 31) :
    expectedEncodeSize false w h = w.toNat * h.toNat * 3 := by
  have hw' : w = (w.toNat : Int) := (Int.toNat_of_nonneg hw0).symm
  have hh' : h = (h.toNat : Int) := (Int.toNat_of_nonneg hh0).symm
  have hwn : w.toNat < 2 ^ 31 := by omega
  have hhn : h.toNat < 2 ^ 31 := by omega
  rw [expectedEncodeSize, if_neg (by simp), hw', hh']
  have hcast : ((w.toNat : Int)) * (h.toNat : Int) * 3
      = ((w.toNat * h.toNat * 3 : Nat) : Int) := by push_cast; ring
  rw [hcast]
  apply sizeT_ofNat
  have h1 : w.toNat * h.toNat < 2 ^ 62 := by
    calc w.toNat * h.toNat < 2 ^ 31 * 2 ^ 31 :=
          Nat.mul_lt_mul_of_lt_of_lt hwn hhn
    _ = 2 ^ 62 := by norm_num
  omega

/-- A buffer whose length differs from `expectedSize` is rejected before
any native call: the run is exactly the validation-failure record. -/
theorem encodeVP8Frame_invalid (o : EncodeOracle) (input : List Nat)
    (w h : Int) (fmt : String)
    (hne : input.length ≠ expectedEncodeSize (isI420Format fmt) w h) :
    encodeVP8Frame o input w h fmt =
      { outcome := .err (.typeError
          (if isI420Format fmt then "I420 buffer size mismatch"
           else "RGB24 buffer size mismatch")),
        res := Resources.clean, trace := [], submitted := none } := by
  unfold encodeVP8Frame
  rw [if_pos hne]

/-- Whatever branch `encodeSubmit` takes, the trace it produces extends
the trace accumulated so far. -/
theorem encodeSubmit_trace_mem (o : EncodeOracle) (frame : FrameState)
    (swsLive : Bool) (trace0 : List NCall) (a : NCall) (ha : a ∈ trace0) :
    a ∈ (encodeSubmit o frame swsLive trace0).trace := by
  unfold encodeSubmit
  repeat' split
  all_goals exact List.mem_append_left _ ha

/-- A buffer of the expected length passes validation: the run performs
the encoder lookup. -/
theorem encodeVP8Frame_valid_trace (o : EncodeOracle) (input : List Nat)
    (w h : Int) (fmt : String)
    (hlen : input.length = expectedEncodeSize (isI420Format fmt) w h) :
    NCall.findEncoder ∈ (encodeVP8Frame o input w h fmt).trace := by
  unfold encodeVP8Frame encodeStage2
  rw [hlen, if_neg (by simp :
    ¬ (expectedEncodeSize (isI420Format fmt) w h
        ≠ expectedEncodeSize (isI420Format fmt) w h))]
  repeat' split
  all_goals first
    | exact List.mem_cons_self _ _
    | exact encodeSubmit_trace_mem _ _ _ _ _ (List.mem_cons_self _ _)

/-- A buffer of the expected length passes validation: the run continues
as `encodeStage2`. -/
theorem encodeVP8Frame_valid (o : EncodeOracle) (input : List Nat)
    (w h : Int) (fmt : String)
    (hlen : input.length = expectedEncodeSize (isI420Format fmt) w h) :
    encodeVP8Frame o input w h fmt = encodeStage2 o input w h (isI420Format fmt) := by
  unfold encodeVP8Frame
  rw [hlen, if_neg (by simp :
    ¬ (expectedEncodeSize (isI420Format fmt) w h
        ≠ expectedEncodeSize (isI420Format fmt) w h))]

/-- When lookup, context allocation, open and frame-buffer allocation all
succeed, `encodeStage2` reaches the pixel-preparation step. -/
theorem encodeStage2_ok (o : EncodeOracle) (input : List Nat) (w h : Int)
    (i420 : Bool)
    (he : o.encoderFound = true) (hc : o.ctxAllocOk = true)
    (ho : 0 ≤ o.openStatus) (hf : o.frameAllocOk = true)
    (hg : 0 ≤ o.getBufferStatus) :
    encodeStage2 o input w h i420
      = if i420 then
          encodeSubmit o (i420Frame o input w h) false
            [.findEncoder, .allocCtx, .openCtx, .allocFrame, .getBuffer,
             .makeWritable]
        else if ¬ o.swsCtxOk then
          { outcome := .err (.error "Failed to create swscale context"),
            res := Resources.clean,
            trace := [.findEncoder, .allocCtx, .openCtx, .allocFrame, .getBuffer,
                      .makeWritable, .getSws w h],
            submitted := none }
        else
          encodeSubmit o (rgbFrame o) true
            [.findEncoder, .allocCtx, .openCtx, .allocFrame, .getBuffer,
             .makeWritable, .getSws w h, .swsScale] := by
  unfold encodeStage2
  rw [if_neg (by simp [he]), if_neg (by simp [hc]), if_neg (not_lt.mpr ho),
      if_neg (by simp [hf]), if_neg (not_lt.mpr hg)]

/-- When the frame submission, packet allocation and packet receive all
succeed, `encodeSubmit` returns the packet payload with its keyframe
flag; the `flushStatus` and every other discarded status never appear in
the result. -/
theorem encodeSubmit_ok (o : EncodeOracle) (frame : FrameState)
    (swsLive : Bool) (trace0 : List NCall)
    (hs : 0 ≤ o.sendFrameStatus) (hp : o.pktAllocOk = true)
    (hr : 0 ≤ o.receiveStatus) :
    encodeSubmit o frame swsLive trace0
      = { outcome := .ok { data := o.pktData, isKeyframe := o.pktKeyFlag,
                           size := o.pktData.length },
          res := Resources.clean,
          trace := trace0 ++ [.allocPkt, .sendFrame, .flush, .receivePkt],
          submitted := some frame } := by
  unfold encodeSubmit
  rw [if_neg (not_lt.mpr hs), if_neg (by simp [hp]), if_neg (not_lt.mpr hr)]

/-- A rejected frame submission surfaces the native diagnostic text. -/
theorem encodeSubmit_sendFail (o : EncodeOracle) (frame : FrameState)
    (swsLive : Bool) (trace0 : List NCall) (hs : o.sendFrameStatus < 0) :
    encodeSubmit o frame swsLive trace0
      = { outcome := .err (.error ("Failed to send frame: "
            ++ o.strerror o.sendFrameStatus)),
          res := Resources.clean,
          trace := trace0 ++ [.allocPkt, .sendFrame],
          submitted := some frame } := by
  unfold encodeSubmit
  rw [if_pos hs]

/-- A failed packet receive surfaces the native diagnostic text. -/
theorem encodeSubmit_recvFail (o : EncodeOracle) (frame : FrameState)
    (swsLive : Bool) (trace0 : List NCall)
    (hs : 0 ≤ o.sendFrameStatus) (hp : o.pktAllocOk = true)
    (hr : o.receiveStatus < 0) :
    encodeSubmit o frame swsLive trace0
      = { outcome := .err (.error ("Failed to receive packet: "
            ++ o.strerror o.receiveStatus)),
          res := Resources.clean,
          trace := trace0 ++ [.allocPkt, .sendFrame, .flush, .receivePkt],
          submitted := some frame } := by
  unfold encodeSubmit
  rw [if_neg (not_lt.mpr hs), if_neg (by simp [hp]), if_pos hr]

/-- Whatever branch `encodeSubmit` takes, nothing stays allocated unless
the packet allocation failed (the crash path). -/
theorem encodeSubmit_res (o : EncodeOracle) (frame : FrameState)
    (swsLive : Bool) (trace0 : List NCall) (hp : o.pktAllocOk = true) :
    (encodeSubmit o frame swsLive trace0).res = Resources.clean := by
  unfold encodeSubmit
  repeat' split
  all_goals first | rfl | simp_all

/-- When every native decode call succeeds, `decodeVP8Frame` returns the
converted RGB result. -/
theorem decodeVP8Frame_ok (o : DecodeOracle) (inp : List Nat)
    (hd : o.decoderFound = true) (hc : o.ctxAllocOk = true)
    (ho : 0 ≤ o.openStatus) (hp : o.pktAllocOk = true)
    (hs : 0 ≤ o.sendStatus) (hf : o.frameAllocOk = true)
    (hr : 0 ≤ o.receiveStatus) (hsw : o.swsCtxOk = true) :
    decodeVP8Frame o inp
      = { outcome := .ok (decodeSuccessResult o),
          res := Resources.clean,
          trace := [.findDecoder, .allocCtx, .openCtx, .allocPkt, .allocFrame,
                    .sendPkt, .receiveFrame, .getSws o.frameWidth o.frameHeight,
                    .swsScale] } := by
  unfold decodeVP8Frame
  rw [if_neg (by simp [hd]), if_neg (by simp [hc]), if_neg (not_lt.mpr ho),
      if_neg (by simp [hp]), if_neg (not_lt.mpr hs), if_neg (by simp [hf]),
      if_neg (not_lt.mpr hr), if_neg (by simp [hsw])]

/-- Whatever branch `encodeSubmit` takes, the submitted frame is the one
it was handed. -/
theorem encodeSubmit_submitted (o : EncodeOracle) (frame : FrameState)
    (swsLive : Bool) (trace0 : List NCall) :
    (encodeSubmit o frame swsLive trace0).submitted = some frame := by
  unfold encodeSubmit
  repeat' split
  all_goals rfl

/-- A call absent from the accumulated trace and different from the four
calls `encodeSubmit` itself performs is absent from the final trace. -/
theorem encodeSubmit_trace_not_mem (o : EncodeOracle) (frame : FrameState)
    (swsLive : Bool) (trace0 : List NCall) (a : NCall) (ha : a ∉ trace0)
    (h1 : a ≠ .allocPkt) (h2 : a ≠ .sendFrame) (h3 : a ≠ .flush)
    (h4 : a ≠ .receivePkt) :
    a ∉ (encodeSubmit o frame swsLive trace0).trace := by
  unfold encodeSubmit
  repeat' split
  all_goals simp_all [List.mem_append]

/-- Reading an element of a mapped range below its length. -/
theorem range_map_getD (f : Nat → Nat) (N i : Nat) (h : i < N) :
    ((List.range N).map f).getD i 0 = f i := by
  rw [List.getD_eq_getElem?_getD, List.getElem?_map, List.getElem?_range h]
  rfl

/-- On any layout, once validation passes and lookup, context allocation,
open, frame-buffer allocation and (on the RGB24 path) converter creation
succeed, the run is an `encodeSubmit` of a frame tagged intra with
timestamp zero — `i420Frame` on the planar path, `rgbFrame` on the
converted path. -/
theorem encodeVP8Frame_submit_form (o : EncodeOracle) (input : List Nat)
    (w h : Int) (fmt : String)
    (hlen : input.length = expectedEncodeSize (isI420Format fmt) w h)
    (he : o.encoderFound = true) (hc : o.ctxAllocOk = true)
    (ho : 0 ≤ o.openStatus) (hf : o.frameAllocOk = true)
    (hg : 0 ≤ o.getBufferStatus)
    (hsws : isI420Format fmt = true ∨ o.swsCtxOk = true) :
    ∃ fr sl t0, encodeVP8Frame o input w h fmt = encodeSubmit o fr sl t0
      ∧ fr.pictTypeI = true ∧ fr.pts = 0 := by
  rw [encodeVP8Frame_valid o input w h fmt hlen]
  cases hI : isI420Format fmt with
  | true =>
    refine ⟨i420Frame o input w h, false,
      [.findEncoder, .allocCtx, .openCtx, .allocFrame, .getBuffer, .makeWritable],
      ?_, rfl, rfl⟩
    rw [encodeStage2_ok o input w h true he hc ho hf hg, if_pos rfl]
  | false =>
    have hswsCtx : o.swsCtxOk = true := by
      rcases hsws with hT | hB
      · rw [hI] at hT
        simp at hT
      · exact hB
    refine ⟨rgbFrame o, true,
      [.findEncoder, .allocCtx, .openCtx, .allocFrame, .getBuffer, .makeWritable,
       .getSws w h, .swsScale], ?_, rfl, rfl⟩
    rw [encodeStage2_ok o input w h false he hc ho hf hg,
        if_neg (by simp), if_neg (by simp [hswsCtx])]

/-! ## Claim theorems -/

/-- C1 counterexample: the claim's ceiling formula fails on the code for
odd dimensions.  For a 5x5 I420 call the claim requires exactly
`25 + 2 * ceil(5/2) * ceil(5/2) = 43` bytes to pass validation, but the
code computes `25 + (5/2) * (5/2) * 2 = 33` with truncating division: a
43-byte buffer is rejected with the I420 size error before any codec
work, while a 33-byte buffer passes validation and encodes. -/
theorem C1_counterexample :
    5 * 5 + 2 * ((5 + 1) / 2) * ((5 + 1) / 2) = 43
    ∧ (encodeVP8Frame okEncodeOracle (List.replicate 43 0) 5 5 "I420").outcome
        = .err (.typeError "I420 buffer size mismatch")
    ∧ (encodeVP8Frame okEncodeOracle (List.replicate 43 0) 5 5 "I420").trace = []
    ∧ (encodeVP8Frame okEncodeOracle (List.replicate 33 0) 5 5 "I420").outcome
        = .ok { data := [1, 2, 3, 4], isKeyframe := true, size := 4 } := by
  refine ⟨by norm_num, ?_, ?_, ?_⟩ <;> rfl

/-- C1 (amended): an I420-layout encode call passes buffer validation
exactly when the byte length equals
`width * height + (width / 2) * (height / 2) * 2` with *truncating*
division (chroma plane dimensions round *down* for odd width/height);
any other length fails with the I420 size `TypeError` before any native
call is made. -/
theorem C1_i420_size_validation (o : EncodeOracle) (input : List Nat)
    (w h : Int) (hw0 : 0 ≤ w) (hw : w < 2 ^ 31) (hh0 : 0 ≤ h) (hh : h < 2 ^ 31) :
    ((encodeVP8Frame o input w h "I420").outcome
        = .err (.typeError "I420 buffer size mismatch")
      ∧ (encodeVP8Frame o input w h "I420").trace = [])
    ↔ input.length ≠ w.toNat * h.toNat + w.toNat / 2 * (h.toNat / 2) * 2 := by
  have hsize : expectedEncodeSize (isI420Format "I420") w h
      = w.toNat * h.toNat + w.toNat / 2 * (h.toNat / 2) * 2 := by
    rw [show isI420Format "I420" = true from rfl]
    exact expectedEncodeSize_i420 w h hw0 hw hh0 hh
  constructor
  · rintro ⟨_, htr⟩ hcontra
    have hlen : input.length = expectedEncodeSize (isI420Format "I420") w h := by
      rw [hsize]; exact hcontra
    have hmem := encodeVP8Frame_valid_trace o input w h "I420" hlen
    rw [htr] at hmem
    exact absurd hmem (List.not_mem_nil _)
  · intro hne
    have hne' : input.length ≠ expectedEncodeSize (isI420Format "I420") w h := by
      rw [hsize]; exact hne
    rw [encodeVP8Frame_invalid o input w h "I420" hne']
    exact ⟨rfl, rfl⟩

/-- C1 witness: a 10x10 I420 run with a 149-byte buffer, instantiating
the amended validation theorem. -/
theorem C1_i420_size_validation_witness :
    ((encodeVP8Frame okEncodeOracle (List.replicate 149 0) 10 10 "I420").outcome
        = .err (.typeError "I420 buffer size mismatch")
      ∧ (encodeVP8Frame okEncodeOracle (List.replicate 149 0) 10 10 "I420").trace = [])
    ↔ (List.replicate 149 (0 : Nat)).length
        ≠ (10 : Int).toNat * (10 : Int).toNat
          + (10 : Int).toNat / 2 * ((10 : Int).toNat / 2) * 2 :=
  C1_i420_size_validation okEncodeOracle (List.replicate 149 0) 10 10
    (by norm_num) (by norm_num) (by norm_num) (by norm_num)

/-- C3: an RGB24-layout encode call fails with the RGB24 size `TypeError`
exactly when the byte length differs from `width * height * 3`, the
failure leaves an empty native-call trace (no codec lookup, no codec
operation), and the message differs from the planar-layout message. -/
theorem C3_rgb24_size_validation (o : EncodeOracle) (input : List Nat)
    (w h : Int) (hw0 : 0 ≤ w) (hw : w < 2 ^ 31) (hh0 : 0 ≤ h) (hh : h < 2 ^ 31) :
    (((encodeVP8Frame o input w h "RGB24").outcome
          = .err (.typeError "RGB24 buffer size mismatch")
        ∧ (encodeVP8Frame o input w h "RGB24").trace = [])
      ↔ input.length ≠ w.toNat * h.toNat * 3)
    ∧ "RGB24 buffer size mismatch" ≠ "I420 buffer size mismatch" := by
  have hsize : expectedEncodeSize (isI420Format "RGB24") w h
      = w.toNat * h.toNat * 3 := by
    rw [show isI420Format "RGB24" = false from rfl]
    exact expectedEncodeSize_rgb w h hw0 hw hh0 hh
  refine ⟨⟨?_, ?_⟩, by decide⟩
  · rintro ⟨_, htr⟩ hcontra
    have hlen : input.length = expectedEncodeSize (isI420Format "RGB24") w h := by
      rw [hsize]; exact hcontra
    have hmem := encodeVP8Frame_valid_trace o input w h "RGB24" hlen
    rw [htr] at hmem
    exact absurd hmem (List.not_mem_nil _)
  · intro hne
    have hne' : input.length ≠ expectedEncodeSize (isI420Format "RGB24") w h := by
      rw [hsize]; exact hne
    rw [encodeVP8Frame_invalid o input w h "RGB24" hne']
    exact ⟨rfl, rfl⟩

/-- C3 witness: the spec's own 10x10 example with 299 bytes,
instantiating the validation theorem. -/
theorem C3_rgb24_size_validation_witness :
    ((((encodeVP8Frame okEncodeOracle (List.replicate 299 0) 10 10 "RGB24").outcome
          = .err (.typeError "RGB24 buffer size mismatch")
        ∧ (encodeVP8Frame okEncodeOracle (List.replicate 299 0) 10 10 "RGB24").trace = [])
      ↔ (List.replicate 299 (0 : Nat)).length
          ≠ (10 : Int).toNat * (10 : Int).toNat * 3)
    ∧ "RGB24 buffer size mismatch" ≠ "I420 buffer size mismatch") :=
  C3_rgb24_size_validation okEncodeOracle (List.replicate 299 0) 10 10
    (by norm_num) (by norm_num) (by norm_num) (by norm_num)

/-- C2: provided the unchecked frame and packet allocations succeed (the
precondition under which the pipelines do not crash, see C10), every exit
path of both `Encode` and `Decode` — success or failure at any stage —
ends with no native resource still allocated: codec context, frame,
packet and conversion context are all released. -/
theorem C2_no_leak_on_any_exit (o : EncodeOracle) (input : List Nat)
    (w h : Int) (fmt : String) (od : DecodeOracle) (inp : List Nat)
    (hf : o.frameAllocOk = true) (hp : o.pktAllocOk = true)
    (hdp : od.pktAllocOk = true) (hdf : od.frameAllocOk = true) :
    (encodeVP8Frame o input w h fmt).res = Resources.clean
    ∧ (decodeVP8Frame od inp).res = Resources.clean := by
  constructor
  · unfold encodeVP8Frame encodeStage2
    repeat' split
    all_goals first
      | rfl
      | exact encodeSubmit_res _ _ _ _ hp
      | simp_all
  · unfold decodeVP8Frame
    repeat' split
    all_goals first | rfl | simp_all

/-- C2 witness: a concrete all-success encode run and a concrete
failing decode run (decoder open fails), both leaving no resource
allocated. -/
theorem C2_no_leak_on_any_exit_witness :
    (encodeVP8Frame okEncodeOracle (List.replicate 300 0) 10 10 "RGB24").res
        = Resources.clean
    ∧ (decodeVP8Frame { okDecodeOracle with openStatus := -1 } [9]).res
        = Resources.clean :=
  C2_no_leak_on_any_exit okEncodeOracle (List.replicate 300 0) 10 10 "RGB24"
    { okDecodeOracle with openStatus := -1 } [9] rfl rfl rfl rfl

/-- C10: the codec-context allocation is null-checked in both pipelines
(a failure is a clean error return), but the frame and packet allocation
results are dereferenced without a null check: a failed frame allocation
in `Encode` crashes at `frame->format = ...`, a failed packet allocation
in `Encode` crashes at `avcodec_receive_packet` once the frame was
accepted, a failed packet allocation in `Decode` crashes at
`pkt->data = ...`, and a failed frame allocation in `Decode` crashes at
`avcodec_receive_frame` once the packet was accepted. -/
theorem C10_alloc_null_checks (o1 o2 o3 : EncodeOracle) (d1 d2 d3 : DecodeOracle)
    (input1 input2 input3 inp1 inp2 inp3 : List Nat) (w h : Int) (fmt : String)
    (hlen1 : input1.length = expectedEncodeSize (isI420Format fmt) w h)
    (he1 : o1.encoderFound = true) (hc1 : o1.ctxAllocOk = false)
    (hlen2 : input2.length = expectedEncodeSize (isI420Format fmt) w h)
    (he2 : o2.encoderFound = true) (hc2 : o2.ctxAllocOk = true)
    (ho2 : 0 ≤ o2.openStatus) (hf2 : o2.frameAllocOk = false)
    (hlen3 : input3.length = expectedEncodeSize true w h)
    (he3 : o3.encoderFound = true) (hc3 : o3.ctxAllocOk = true)
    (ho3 : 0 ≤ o3.openStatus) (hf3 : o3.frameAllocOk = true)
    (hg3 : 0 ≤ o3.getBufferStatus) (hs3 : 0 ≤ o3.sendFrameStatus)
    (hp3 : o3.pktAllocOk = false)
    (hd1 : d1.decoderFound = true) (hdc1 : d1.ctxAllocOk = false)
    (hd2 : d2.decoderFound = true) (hdc2 : d2.ctxAllocOk = true)
    (hdo2 : 0 ≤ d2.openStatus) (hdp2 : d2.pktAllocOk = false)
    (hd3 : d3.decoderFound = true) (hdc3 : d3.ctxAllocOk = true)
    (hdo3 : 0 ≤ d3.openStatus) (hdp3 : d3.pktAllocOk = true)
    (hds3 : 0 ≤ d3.sendStatus) (hdf3 : d3.frameAllocOk = false) :
    (encodeVP8Frame o1 input1 w h fmt).outcome
        = .err (.error "Failed to allocate encoder context")
    ∧ (encodeVP8Frame o2 input2 w h fmt).outcome = .crash
    ∧ (encodeVP8Frame o3 input3 w h "I420").outcome = .crash
    ∧ (decodeVP8Frame d1 inp1).outcome
        = .err (.error "Failed to allocate codec context")
    ∧ (decodeVP8Frame d2 inp2).outcome = .crash
    ∧ (decodeVP8Frame d3 inp3).outcome = .crash := by
  refine ⟨?_, ?_, ?_, ?_, ?_, ?_⟩
  · rw [encodeVP8Frame_valid o1 input1 w h fmt hlen1]
    unfold encodeStage2
    rw [if_neg (by simp [he1]), if_pos (by simp [hc1])]
  · rw [encodeVP8Frame_valid o2 input2 w h fmt hlen2]
    unfold encodeStage2
    rw [if_neg (by simp [he2]), if_neg (by simp [hc2]), if_neg (not_lt.mpr ho2),
        if_pos (by simp [hf2])]
  · rw [encodeVP8Frame_valid o3 input3 w h "I420"
        (by rw [show isI420Format "I420" = true from rfl]; exact hlen3),
      show isI420Format "I420" = true from rfl,
      encodeStage2_ok o3 input3 w h true he3 hc3 ho3 hf3 hg3, if_pos rfl]
    unfold encodeSubmit
    rw [if_neg (not_lt.mpr hs3), if_pos (by simp [hp3])]
  · unfold decodeVP8Frame
    rw [if_neg (by simp [hd1]), if_pos (by simp [hdc1])]
  · unfold decodeVP8Frame
    rw [if_neg (by simp [hd2]), if_neg (by simp [hdc2]), if_neg (not_lt.mpr hdo2),
        if_pos (by simp [hdp2])]
  · unfold decodeVP8Frame
    rw [if_neg (by simp [hd3]), if_neg (by simp [hdc3]), if_neg (not_lt.mpr hdo3),
        if_neg (by simp [hdp3]), if_neg (not_lt.mpr hds3), if_pos (by simp [hdf3])]

/-- C10 witness: concrete oracles exercising each of the six allocation
outcomes. -/
theorem C10_alloc_null_checks_witness :
    (encodeVP8Frame { okEncodeOracle with ctxAllocOk := false }
        (List.replicate 300 0) 10 10 "RGB24").outcome
      = .err (.error "Failed to allocate encoder context")
    ∧ (encodeVP8Frame { okEncodeOracle with frameAllocOk := false }
        (List.replicate 300 0) 10 10 "RGB24").outcome = .crash
    ∧ (encodeVP8Frame { okEncodeOracle with pktAllocOk := false }
        (List.replicate 150 0) 10 10 "I420").outcome = .crash
    ∧ (decodeVP8Frame { okDecodeOracle with ctxAllocOk := false } [9]).outcome
      = .err (.error "Failed to allocate codec context")
    ∧ (decodeVP8Frame { okDecodeOracle with pktAllocOk := false } [9]).outcome
      = .crash
    ∧ (decodeVP8Frame { okDecodeOracle with frameAllocOk := false } [9]).outcome
      = .crash :=
  C10_alloc_null_checks
    { okEncodeOracle with ctxAllocOk := false }
    { okEncodeOracle with frameAllocOk := false }
    { okEncodeOracle with pktAllocOk := false }
    { okDecodeOracle with ctxAllocOk := false }
    { okDecodeOracle with pktAllocOk := false }
    { okDecodeOracle with frameAllocOk := false }
    (List.replicate 300 0) (List.replicate 300 0) (List.replicate 150 0)
    [9] [9] [9] 10 10 "RGB24"
    (by decide) (by decide) (by decide) (by decide) (by decide) (by decide)
    (by decide) (by decide) (by decide) (by decide) (by decide) (by decide)
    (by decide) (by decide) (by decide) (by decide) (by decide) (by decide)
    (by decide) (by decide) (by decide) (by decide) (by decide) (by decide)
    (by decide) (by decide) (by decide) (by decide)

/-- C4 counterexample: a 0x0 RGB24 call with an empty buffer is *not*
rejected by the Transcoder: it passes buffer validation (the degenerate
formula gives 0 bytes), runs the whole pipeline, and the conversion
backend is invoked with the non-positive dimensions `0, 0`. -/
theorem C4_counterexample :
    (encodeVP8Frame okEncodeOracle [] 0 0 "RGB24").outcome
      = .ok { data := [1, 2, 3, 4], isKeyframe := true, size := 4 }
    ∧ NCall.getSws 0 0 ∈ (encodeVP8Frame okEncodeOracle [] 0 0 "RGB24").trace :=
  ⟨rfl, by decide⟩

/-- C4 (amended): the Transcoder performs no dimension check at all.  Any
RGB24 call whose buffer length matches the (possibly degenerate) size
formula — zero or negative dimensions included — passes validation and
reaches the codec lookup, and when the codec open, frame allocation and
converter creation succeed, the Pixel Format Converter is invoked with
exactly the given dimensions; rejection of non-positive dimensions is
left to the external library, not done upstream. -/
theorem C4_no_dimension_check (o : EncodeOracle) (input : List Nat) (w h : Int)
    (hlen : input.length = expectedEncodeSize false w h)
    (he : o.encoderFound = true) (hc : o.ctxAllocOk = true)
    (ho : 0 ≤ o.openStatus) (hf : o.frameAllocOk = true)
    (hg : 0 ≤ o.getBufferStatus) (hsw : o.swsCtxOk = true) :
    NCall.findEncoder ∈ (encodeVP8Frame o input w h "RGB24").trace
    ∧ NCall.getSws w h ∈ (encodeVP8Frame o input w h "RGB24").trace := by
  have hred : encodeVP8Frame o input w h "RGB24"
      = encodeSubmit o (rgbFrame o) true
          [.findEncoder, .allocCtx, .openCtx, .allocFrame, .getBuffer,
           .makeWritable, .getSws w h, .swsScale] := by
    rw [encodeVP8Frame_valid o input w h "RGB24"
          (by rw [show isI420Format "RGB24" = false from rfl]; exact hlen),
        show isI420Format "RGB24" = false from rfl,
        encodeStage2_ok o input w h false he hc ho hf hg,
        if_neg (by simp), if_neg (by simp [hsw])]
  rw [hred]
  exact ⟨encodeSubmit_trace_mem _ _ _ _ _ (by simp),
         encodeSubmit_trace_mem _ _ _ _ _ (by simp)⟩

/-- C4 witness: the amended theorem applied to the concrete 0x0 run. -/
theorem C4_no_dimension_check_witness :
    NCall.findEncoder ∈ (encodeVP8Frame okEncodeOracle [] 0 0 "RGB24").trace
    ∧ NCall.getSws 0 0 ∈ (encodeVP8Frame okEncodeOracle [] 0 0 "RGB24").trace :=
  C4_no_dimension_check okEncodeOracle [] 0 0 (by decide) (by decide) (by decide)
    (by decide) (by decide) (by decide) (by decide)

/-- C5 counterexample: the claim that *no* negative native status is
ignored fails — a run in which `av_frame_make_writable`, the
end-of-stream flush submission and `sws_scale` all return `-1` still
succeeds with no error. -/
theorem C5_counterexample :
    (encodeVP8Frame
        { okEncodeOracle with makeWritableStatus := -1, flushStatus := -1,
                              swsScaleStatus := -1 }
        (List.replicate 300 0) 10 10 "RGB24").outcome
      = .ok { data := [1, 2, 3, 4], isKeyframe := true, size := 4 } := rfl

/-- C5 (amended): on every layout, negative statuses from the initial
frame submission, the packet receive, the packet submission and the frame
receive are each translated into an error carrying the native diagnostic
text, but the statuses of the end-of-stream flush submission, the
make-frame-writable call and the pixel-format conversion call (encode
line 257 and decode line 416) are discarded: with every checked call
succeeding, both runs succeed whatever those statuses are (they are
unconstrained here). -/
theorem C5_status_translation (o : EncodeOracle) (od : DecodeOracle)
    (input inp : List Nat) (w h : Int) (fmt : String)
    (hlen : input.length = expectedEncodeSize (isI420Format fmt) w h)
    (he : o.encoderFound = true) (hc : o.ctxAllocOk = true)
    (ho : 0 ≤ o.openStatus) (hf : o.frameAllocOk = true)
    (hg : 0 ≤ o.getBufferStatus)
    (hsws : isI420Format fmt = true ∨ o.swsCtxOk = true)
    (hp : o.pktAllocOk = true)
    (hd : od.decoderFound = true) (hdc : od.ctxAllocOk = true)
    (hdo : 0 ≤ od.openStatus) (hdp : od.pktAllocOk = true)
    (hdf : od.frameAllocOk = true) (hdsw : od.swsCtxOk = true) :
    (o.sendFrameStatus < 0 →
      (encodeVP8Frame o input w h fmt).outcome
        = .err (.error ("Failed to send frame: " ++ o.strerror o.sendFrameStatus)))
    ∧ (0 ≤ o.sendFrameStatus → o.receiveStatus < 0 →
      (encodeVP8Frame o input w h fmt).outcome
        = .err (.error ("Failed to receive packet: " ++ o.strerror o.receiveStatus)))
    ∧ (0 ≤ o.sendFrameStatus → 0 ≤ o.receiveStatus →
      (encodeVP8Frame o input w h fmt).outcome
        = .ok { data := o.pktData, isKeyframe := o.pktKeyFlag,
                size := o.pktData.length })
    ∧ (od.sendStatus < 0 →
      (decodeVP8Frame od inp).outcome
        = .err (.error ("Failed to send packet: " ++ od.strerror od.sendStatus)))
    ∧ (0 ≤ od.sendStatus → od.receiveStatus < 0 →
      (decodeVP8Frame od inp).outcome
        = .err (.error ("Failed to receive frame: " ++ od.strerror od.receiveStatus)))
    ∧ (0 ≤ od.sendStatus → 0 ≤ od.receiveStatus →
      (decodeVP8Frame od inp).outcome = .ok (decodeSuccessResult od)) := by
  obtain ⟨fr, sl, t0, heq, _, _⟩ :=
    encodeVP8Frame_submit_form o input w h fmt hlen he hc ho hf hg hsws
  refine ⟨?_, ?_, ?_, ?_, ?_, ?_⟩
  · intro hs
    rw [heq, encodeSubmit_sendFail o _ _ _ hs]
  · intro hs hr
    rw [heq, encodeSubmit_recvFail o _ _ _ hs hp hr]
  · intro hs hr
    rw [heq, encodeSubmit_ok o _ _ _ hs hp hr]
  · intro hs
    unfold decodeVP8Frame
    rw [if_neg (by simp [hd]), if_neg (by simp [hdc]), if_neg (not_lt.mpr hdo),
        if_neg (by simp [hdp]), if_pos hs]
  · intro hs hr
    unfold decodeVP8Frame
    rw [if_neg (by simp [hd]), if_neg (by simp [hdc]), if_neg (not_lt.mpr hdo),
        if_neg (by simp [hdp]), if_neg (not_lt.mpr hs), if_neg (by simp [hdf]),
        if_pos hr]
  · intro hs hr
    rw [decodeVP8Frame_ok od inp hd hdc hdo hdp hs hdf hr hdsw]

/-- C5 witness: the amended theorem at a concrete 10x10 RGB24 run (the
path that performs the conversion call) and a concrete decode run. -/
theorem C5_status_translation_witness :
    ((okEncodeOracle.sendFrameStatus < 0 →
      (encodeVP8Frame okEncodeOracle (List.replicate 300 0) 10 10 "RGB24").outcome
        = .err (.error ("Failed to send frame: "
            ++ okEncodeOracle.strerror okEncodeOracle.sendFrameStatus)))
    ∧ (0 ≤ okEncodeOracle.sendFrameStatus → okEncodeOracle.receiveStatus < 0 →
      (encodeVP8Frame okEncodeOracle (List.replicate 300 0) 10 10 "RGB24").outcome
        = .err (.error ("Failed to receive packet: "
            ++ okEncodeOracle.strerror okEncodeOracle.receiveStatus)))
    ∧ (0 ≤ okEncodeOracle.sendFrameStatus → 0 ≤ okEncodeOracle.receiveStatus →
      (encodeVP8Frame okEncodeOracle (List.replicate 300 0) 10 10 "RGB24").outcome
        = .ok { data := okEncodeOracle.pktData,
                isKeyframe := okEncodeOracle.pktKeyFlag,
                size := okEncodeOracle.pktData.length })
    ∧ (okDecodeOracle.sendStatus < 0 →
      (decodeVP8Frame okDecodeOracle [9]).outcome
        = .err (.error ("Failed to send packet: "
            ++ okDecodeOracle.strerror okDecodeOracle.sendStatus)))
    ∧ (0 ≤ okDecodeOracle.sendStatus → okDecodeOracle.receiveStatus < 0 →
      (decodeVP8Frame okDecodeOracle [9]).outcome
        = .err (.error ("Failed to receive frame: "
            ++ okDecodeOracle.strerror okDecodeOracle.receiveStatus)))
    ∧ (0 ≤ okDecodeOracle.sendStatus → 0 ≤ okDecodeOracle.receiveStatus →
      (decodeVP8Frame okDecodeOracle [9]).outcome
        = .ok (decodeSuccessResult okDecodeOracle))) :=
  C5_status_translation okEncodeOracle okDecodeOracle (List.replicate 300 0) [9]
    10 10 "RGB24" (by decide) (by decide) (by decide) (by decide) (by decide)
    (by decide) (by decide) (by decide) (by decide) (by decide) (by decide)
    (by decide) (by decide) (by decide)

/-- C6: on every fully successful single-frame encode, whatever the
layout option, the reported `isKeyframe` is exactly the received packet's
key flag — not a hard-coded value — the submitted frame is tagged as an
intra/key picture with timestamp zero, and whenever the packet carries
the key flag (which the encoder, being handed an intra frame, sets) the
call reports `isKeyframe = true`. -/
theorem C6_keyframe_from_packet (o : EncodeOracle) (input : List Nat)
    (w h : Int) (fmt : String)
    (hlen : input.length = expectedEncodeSize (isI420Format fmt) w h)
    (he : o.encoderFound = true) (hc : o.ctxAllocOk = true)
    (ho : 0 ≤ o.openStatus) (hf : o.frameAllocOk = true)
    (hg : 0 ≤ o.getBufferStatus)
    (hsws : isI420Format fmt = true ∨ o.swsCtxOk = true)
    (hs : 0 ≤ o.sendFrameStatus) (hp : o.pktAllocOk = true)
    (hr : 0 ≤ o.receiveStatus) :
    (encodeVP8Frame o input w h fmt).outcome
      = .ok { data := o.pktData, isKeyframe := o.pktKeyFlag,
              size := o.pktData.length }
    ∧ (∃ f, (encodeVP8Frame o input w h fmt).submitted = some f
        ∧ f.pictTypeI = true ∧ f.pts = 0)
    ∧ (o.pktKeyFlag = true →
      (encodeVP8Frame o input w h fmt).outcome
        = .ok { data := o.pktData, isKeyframe := true,
                size := o.pktData.length }) := by
  obtain ⟨fr, sl, t0, heq, hpict, hpts⟩ :=
    encodeVP8Frame_submit_form o input w h fmt hlen he hc ho hf hg hsws
  refine ⟨?_, ⟨fr, ?_, hpict, hpts⟩, ?_⟩
  · rw [heq, encodeSubmit_ok o _ _ _ hs hp hr]
  · rw [heq, encodeSubmit_submitted]
  · intro hk
    rw [heq, encodeSubmit_ok o _ _ _ hs hp hr, hk]

/-- C6 witness: the concrete all-success 10x10 run on the default RGB24
layout. -/
theorem C6_keyframe_from_packet_witness :
    (encodeVP8Frame okEncodeOracle (List.replicate 300 0) 10 10 "RGB24").outcome
      = .ok { data := okEncodeOracle.pktData,
              isKeyframe := okEncodeOracle.pktKeyFlag,
              size := okEncodeOracle.pktData.length }
    ∧ (∃ f, (encodeVP8Frame okEncodeOracle (List.replicate 300 0) 10 10 "RGB24").submitted
          = some f ∧ f.pictTypeI = true ∧ f.pts = 0)
    ∧ (okEncodeOracle.pktKeyFlag = true →
      (encodeVP8Frame okEncodeOracle (List.replicate 300 0) 10 10 "RGB24").outcome
        = .ok { data := okEncodeOracle.pktData, isKeyframe := true,
                size := okEncodeOracle.pktData.length }) :=
  C6_keyframe_from_packet okEncodeOracle (List.replicate 300 0) 10 10 "RGB24"
    (by decide) (by decide) (by decide) (by decide) (by decide) (by decide)
    (by decide) (by decide) (by decide) (by decide)

/-- C7: an I420-layout encode never creates a pixel-format conversion
context (no `sws_getContext` call appears on that path) and fills the
native frame by a direct plane-by-plane copy at the destination's
per-plane line size: Y plane rows from input offset 0, U plane rows from
offset `width * height`, V plane rows from offset
`width * height + (width / 2) * (height / 2)`; an RGB24-layout call with
the same dimensions does invoke the converter. -/
theorem C7_planar_direct_copy (o : EncodeOracle) (input input2 : List Nat)
    (w h : Int)
    (hlen : input.length = expectedEncodeSize true w h)
    (hlen2 : input2.length = expectedEncodeSize false w h)
    (he : o.encoderFound = true) (hc : o.ctxAllocOk = true)
    (ho : 0 ≤ o.openStatus) (hf : o.frameAllocOk = true)
    (hg : 0 ≤ o.getBufferStatus) (hsw : o.swsCtxOk = true)
    (hls0 : w.toNat ≤ o.ls0) (hls1 : w.toNat / 2 ≤ o.ls1)
    (hls2 : w.toNat / 2 ≤ o.ls2) :
    (∀ a b, NCall.getSws a b ∉ (encodeVP8Frame o input w h "I420").trace)
    ∧ (∃ f, (encodeVP8Frame o input w h "I420").submitted = some f
        ∧ (∀ y x, y < h.toNat → x < w.toNat →
            f.planeY (y * o.ls0 + x) = input.getD (y * w.toNat + x) 0)
        ∧ (∀ r c, r < h.toNat / 2 → c < w.toNat / 2 →
            f.planeU (r * o.ls1 + c)
              = input.getD (w.toNat * h.toNat + r * (w.toNat / 2) + c) 0)
        ∧ (∀ r c, r < h.toNat / 2 → c < w.toNat / 2 →
            f.planeV (r * o.ls2 + c)
              = input.getD (w.toNat * h.toNat + w.toNat / 2 * (h.toNat / 2)
                  + r * (w.toNat / 2) + c) 0))
    ∧ NCall.getSws w h ∈ (encodeVP8Frame o input2 w h "RGB24").trace := by
  have hred : encodeVP8Frame o input w h "I420"
      = encodeSubmit o (i420Frame o input w h) false
          [.findEncoder, .allocCtx, .openCtx, .allocFrame, .getBuffer,
           .makeWritable] := by
    rw [encodeVP8Frame_valid o input w h "I420"
          (by rw [show isI420Format "I420" = true from rfl]; exact hlen),
        show isI420Format "I420" = true from rfl,
        encodeStage2_ok o input w h true he hc ho hf hg, if_pos rfl]
  have hred2 : encodeVP8Frame o input2 w h "RGB24"
      = encodeSubmit o (rgbFrame o) true
          [.findEncoder, .allocCtx, .openCtx, .allocFrame, .getBuffer,
           .makeWritable, .getSws w h, .swsScale] := by
    rw [encodeVP8Frame_valid o input2 w h "RGB24"
          (by rw [show isI420Format "RGB24" = false from rfl]; exact hlen2),
        show isI420Format "RGB24" = false from rfl,
        encodeStage2_ok o input2 w h false he hc ho hf hg,
        if_neg (by simp), if_neg (by simp [hsw])]
  refine ⟨?_, ⟨i420Frame o input w h, ?_, ?_, ?_, ?_⟩, ?_⟩
  · intro a b
    rw [hred]
    exact encodeSubmit_trace_not_mem _ _ _ _ _ (by simp) (by simp) (by simp)
      (by simp) (by simp)
  · rw [hred, encodeSubmit_submitted]
  · intro y x hy hx
    simpa [i420Frame] using
      copyRows_read o.initY (fun i => input.getD i 0) o.ls0 0 w.toNat w.toNat
        h.toNat y x hx hy hls0
  · intro r c hr hc2
    simpa [i420Frame] using
      copyRows_read o.initU (fun i => input.getD i 0) o.ls1
        (w.toNat * h.toNat) (w.toNat / 2) (w.toNat / 2) (h.toNat / 2)
        r c hc2 hr hls1
  · intro r c hr hc2
    simpa [i420Frame] using
      copyRows_read o.initV (fun i => input.getD i 0) o.ls2
        (w.toNat * h.toNat + w.toNat / 2 * (h.toNat / 2)) (w.toNat / 2)
        (w.toNat / 2) (h.toNat / 2) r c hc2 hr hls2
  · rw [hred2]
    exact encodeSubmit_trace_mem _ _ _ _ _ (by simp)

/-- C7 witness: a concrete 10x10 run on each path — no converter call on
the I420 path, a converter call with the frame dimensions on the RGB24
path. -/
theorem C7_planar_direct_copy_witness :
    (∀ a b, NCall.getSws a b
        ∉ (encodeVP8Frame okEncodeOracle (List.replicate 150 0) 10 10 "I420").trace)
    ∧ NCall.getSws 10 10
        ∈ (encodeVP8Frame okEncodeOracle (List.replicate 300 0) 10 10 "RGB24").trace :=
  have hth := C7_planar_direct_copy okEncodeOracle (List.replicate 150 0)
    (List.replicate 300 0) 10 10 (by decide) (by decide) (by decide) (by decide)
    (by decide) (by decide) (by decide) (by decide) (by decide) (by decide)
    (by decide)
  ⟨hth.1, hth.2.2⟩

/-- C8: every successful decode returns format name `"rgb24"`, pixel data
of exactly `width * height * 3` bytes for the decoded frame's dimensions,
and diagnostic fields `firstPixelR/G/B` equal to bytes 0, 1 and 2 of the
returned pixel data. -/
theorem C8_decode_result_shape (o : DecodeOracle) (inp : List Nat)
    (hd : o.decoderFound = true) (hc : o.ctxAllocOk = true)
    (ho : 0 ≤ o.openStatus) (hp : o.pktAllocOk = true)
    (hs : 0 ≤ o.sendStatus) (hf : o.frameAllocOk = true)
    (hr : 0 ≤ o.receiveStatus) (hsw : o.swsCtxOk = true)
    (hwpos : 0 < o.frameWidth) (hhpos : 0 < o.frameHeight)
    (hwb : o.frameWidth < 2 ^ 31) (hhb : o.frameHeight < 2 ^ 31) :
    ∃ r, (decodeVP8Frame o inp).outcome = .ok r
      ∧ r.format = "rgb24"
      ∧ r.data.length = o.frameWidth.toNat * o.frameHeight.toNat * 3
      ∧ r.data.getD 0 0 = r.firstPixelR
      ∧ r.data.getD 1 0 = r.firstPixelG
      ∧ r.data.getD 2 0 = r.firstPixelB := by
  have hsize : sizeT (o.frameWidth * o.frameHeight * 3)
      = o.frameWidth.toNat * o.frameHeight.toNat * 3 := by
    rw [show sizeT (o.frameWidth * o.frameHeight * 3)
          = expectedEncodeSize false o.frameWidth o.frameHeight from rfl]
    exact expectedEncodeSize_rgb _ _ (le_of_lt hwpos) hwb (le_of_lt hhpos) hhb
  have hge3 : 3 ≤ sizeT (o.frameWidth * o.frameHeight * 3) := by
    rw [hsize]
    have h1 : 1 ≤ o.frameWidth.toNat := by omega
    have h2 : 1 ≤ o.frameHeight.toNat := by omega
    have := Nat.mul_le_mul h1 h2
    omega
  rw [decodeVP8Frame_ok o inp hd hc ho hp hs hf hr hsw]
  refine ⟨decodeSuccessResult o, rfl, rfl, ?_, ?_, ?_, ?_⟩
  · simp [decodeSuccessResult, hsize]
  · simpa [decodeSuccessResult] using
      range_map_getD o.rgbOut (sizeT (o.frameWidth * o.frameHeight * 3)) 0
        (by omega)
  · simpa [decodeSuccessResult] using
      range_map_getD o.rgbOut (sizeT (o.frameWidth * o.frameHeight * 3)) 1
        (by omega)
  · simpa [decodeSuccessResult] using
      range_map_getD o.rgbOut (sizeT (o.frameWidth * o.frameHeight * 3)) 2
        (by omega)

/-- C8 witness: the concrete all-success decode of a 4x2 frame. -/
theorem C8_decode_result_shape_witness :
    ∃ r, (decodeVP8Frame okDecodeOracle [9]).outcome = .ok r
      ∧ r.format = "rgb24"
      ∧ r.data.length
          = okDecodeOracle.frameWidth.toNat * okDecodeOracle.frameHeight.toNat * 3
      ∧ r.data.getD 0 0 = r.firstPixelR
      ∧ r.data.getD 1 0 = r.firstPixelG
      ∧ r.data.getD 2 0 = r.firstPixelB :=
  C8_decode_result_shape okDecodeOracle [9] (by decide) (by decide) (by decide)
    (by decide) (by decide) (by decide) (by decide) (by decide) (by decide)
    (by decide) (by decide) (by decide)

/-- C9: the format option `"YUV420P"` is treated identically to `"I420"`
(the whole run is the same), and every other string — lowercase `"i420"`
and unknown names included — is silently treated as packed RGB24 (the
whole run equals the `"RGB24"` run) rather than rejected. -/
theorem C9_format_selection :
    isI420Format "I420" = true
    ∧ isI420Format "YUV420P" = true
    ∧ isI420Format "i420" = false
    ∧ (∀ (o : EncodeOracle) (input : List Nat) (w h : Int),
        encodeVP8Frame o input w h "YUV420P" = encodeVP8Frame o input w h "I420")
    ∧ (∀ (o : EncodeOracle) (input : List Nat) (w h : Int) (s : String),
        s ≠ "I420" → s ≠ "YUV420P" →
        encodeVP8Frame o input w h s = encodeVP8Frame o input w h "RGB24") := by
  refine ⟨rfl, rfl, rfl, ?_, ?_⟩
  · intro o input w h
    rfl
  · intro o input w h s h1 h2
    have hs : isI420Format s = false := by
      unfold isI420Format
      rw [Bool.or_eq_false_iff]
      exact ⟨beq_eq_false_iff_ne.mpr h1, beq_eq_false_iff_ne.mpr h2⟩
    unfold encodeVP8Frame
    rw [hs, show isI420Format "RGB24" = false from rfl]

/-- C9 witness: the lowercase spelling `"i420"` is treated as RGB24. -/
theorem C9_format_selection_witness :
    encodeVP8Frame okEncodeOracle (List.replicate 300 0) 10 10 "i420"
      = encodeVP8Frame okEncodeOracle (List.replicate 300 0) 10 10 "RGB24" :=
  C9_format_selection.2.2.2.2 okEncodeOracle (List.replicate 300 0) 10 10 "i420"
    (by decide) (by decide)

end WebcodecsAddon
